import Mathlib

/-!
Shallow embedding in Lean 4 of the core extraction pipeline of the
Shopify-insights-fetcher repository (src/models.py, src/scraper.py,
src/insights_extractor.py, src/llm_service.py, src/competitor_service.py),
together with theorems settling the specification claims.

Modelling conventions:
* Python machine integers are `Nat`/`Int`; float arithmetic that the code
  performs on small integral counts is modelled over `ℚ` (exact at every
  value the claims mention).
* Fallible calls (`requests`, `openai`, per-stage bodies guarded by
  `try/except`) are modelled as `Except String`/`Option` oracles supplied
  in an environment record: the embedding captures the control flow of the
  Python code over every possible outcome of its effectful calls.
* `BeautifulSoup` documents are abstracted to the exact observations the
  code makes of them (anchor href lists, boolean indicator probes,
  extracted content strings).
-/

namespace ShopifyInsights

/-! ## Data model (src/models.py) -/

/-- `Product` from src/models.py.  `variants` are opaque key-value records. -/
structure Product where
  id : Option String := none
  title : String
  description : Option String := none
  price : Option String := none
  compare_at_price : Option String := none
  vendor : Option String := none
  product_type : Option String := none
  handle : Option String := none
  url : Option String := none
  images : List String := []
  variants : List (List (String × String)) := []
  tags : List String := []
  available : Option Bool := none
deriving DecidableEq, Repr

/-- `FAQ` from src/models.py. -/
structure FAQ where
  question : String
  answer : String
  category : Option String := none
deriving DecidableEq, Repr

/-- `SocialHandle` from src/models.py. -/
structure SocialHandle where
  platform : String
  url : String
  handle : Option String := none
deriving DecidableEq, Repr

/-- `ContactInfo` from src/models.py. -/
structure ContactInfo where
  emails : List String := []
  phone_numbers : List String := []
  address : Option String := none
deriving DecidableEq, Repr

/-- `Policy` from src/models.py. -/
structure Policy where
  title : String
  content : String
  url : Option String := none
deriving DecidableEq, Repr

/-- `ImportantLink` from src/models.py. -/
structure ImportantLink where
  title : String
  url : String
  description : Option String := none
deriving DecidableEq, Repr

/-- `BrandContext` from src/models.py with its pydantic defaults.
The `analysis_timestamp : datetime` field (a wall-clock default) is the one
field omitted: no claim observes it. -/
structure BrandContext where
  website_url : String
  brand_name : Option String := none
  about_brand : Option String := none
  product_catalog : List Product := []
  hero_products : List Product := []
  total_products : Nat := 0
  privacy_policy : Option Policy := none
  return_policy : Option Policy := none
  refund_policy : Option Policy := none
  terms_of_service : Option Policy := none
  shipping_policy : Option Policy := none
  faqs : List FAQ := []
  social_handles : List SocialHandle := []
  contact_info : ContactInfo := {}
  important_links : List ImportantLink := []
  currency : Option String := none
  country : Option String := none
  timezone : Option String := none
  extraction_success : Bool := true
  extraction_notes : List String := []
deriving DecidableEq, Repr

/-- `CompetitorAnalysis` from src/models.py. -/
structure CompetitorAnalysis where
  primary_brand : BrandContext
  competitors : List BrandContext := []
  analysis_summary : Option String := none
deriving DecidableEq, Repr

/-! ## String helpers shared by several embedded functions -/

/-- Python `s.lower()` (character-wise, over the string's code points). -/
def pyLower (s : String) : String :=
  String.mk (s.data.map Char.toLower)

/-- Python `s.startswith(pre)`. -/
def pyStartsWith (s pre : String) : Bool :=
  pre.data.isPrefixOf s.data

/-- Python `s.strip()`: leading and trailing whitespace removed. -/
def pyStrip (s : String) : String :=
  String.mk (((s.data.dropWhile Char.isWhitespace).reverse.dropWhile
    Char.isWhitespace).reverse)

/-- A character matched by the regex class `\w` (`[A-Za-z0-9_]`). -/
def isWordChar (c : Char) : Bool :=
  c.isAlphanum || c = '_'

/-- One left-to-right pass of `re.findall(r'\b\w+\b', s)`: maximal runs of
word characters, in order.  `cur` accumulates the current run reversed. -/
def wordRunsAux : List Char → List Char → List String
  | [], cur => if cur.isEmpty then [] else [String.mk cur.reverse]
  | c :: rest, cur =>
    if isWordChar c then
      wordRunsAux rest (c :: cur)
    else if cur.isEmpty then
      wordRunsAux rest []
    else
      String.mk cur.reverse :: wordRunsAux rest []

/-- `re.findall(r'\b\w+\b', s)`. -/
def wordRuns (s : String) : List String :=
  wordRunsAux s.data []

/-- Insertion-order deduplication.  Python's `list(set(xs))` materializes the
set in an unspecified order; the embedding fixes the first-occurrence order
(no claim depends on the order, only on the underlying set and its size). -/
def dedupAux {α : Type} [DecidableEq α] : List α → List α → List α
  | [], _ => []
  | x :: xs, seen => if x ∈ seen then dedupAux xs seen else x :: dedupAux xs (x :: seen)

/-- `list(set(xs))` up to ordering (first-occurrence order). -/
def pyDedup {α : Type} [DecidableEq α] (xs : List α) : List α :=
  dedupAux xs []

/-! ## `_generate_fallback_search_terms` (src/competitor_service.py:132-154) -/

/-- `CompetitorAnalysisService._generate_fallback_search_terms`: product-type
terms (first 10 catalog entries, truthy types lowered, set-deduplicated),
then up to 3 brand-name word tokens, then the first 2 generic terms,
truncated to 8. -/
def generate_fallback_search_terms (primary_brand : BrandContext) : List String :=
  let typeTerms : List String :=
    if primary_brand.product_catalog.isEmpty then []
    else
      pyDedup ((primary_brand.product_catalog.take 10).filterMap fun p =>
        match p.product_type with
        | some t => if t.isEmpty then none else some (pyLower t)
        | none => none)
  let nameTerms : List String :=
    match primary_brand.brand_name with
    | some n => if n.isEmpty then [] else (wordRuns (pyLower n)).take 3
    | none => []
  let genericTerms : List String :=
    ["fashion", "beauty", "cosmetics", "clothing", "accessories"].take 2
  (typeTerms ++ nameTerms ++ genericTerms).take 8

/-! ## `get_market_insights` (src/competitor_service.py:177-239) -/

/-- Result dictionary of `get_market_insights`, with its four fixed keys. -/
structure MarketInsights where
  market_position : String := "unknown"
  product_diversity : String := "unknown"
  price_positioning : String := "unknown"
  social_presence : String := "unknown"
deriving DecidableEq, Repr

/-- Lowercased truthy product types of a catalog, as a deduplicated list
(the Python `set`, materialized in first-occurrence order). -/
def lowerProductTypes (catalog : List Product) : List String :=
  pyDedup (catalog.filterMap fun p =>
    match p.product_type with
    | some t => if t.isEmpty then none else some (pyLower t)
    | none => none)

/-- `CompetitorAnalysisService.get_market_insights`.  The Python float
averages and the literals `1.2` / `0.8` are modelled over `ℚ`
(`6/5` / `4/5`); the body cannot raise in the model, so the defensive
`try/except` wrapper has no error branch. -/
def get_market_insights (primary_brand : BrandContext)
    (competitors : List BrandContext) : MarketInsights :=
  if competitors.isEmpty then {} else
  let primary_products : Nat := primary_brand.total_products
  let avg_competitor_products : ℚ :=
    ((competitors.map (fun c => (c.total_products : ℚ))).sum) / (competitors.length : ℚ)
  let market_position : String :=
    if (primary_products : ℚ) > avg_competitor_products * (6/5) then "large_catalog"
    else if (primary_products : ℚ) < avg_competitor_products * (4/5) then "focused_catalog"
    else "average_catalog"
  let primary_social_count : Nat := primary_brand.social_handles.length
  let avg_competitor_social : ℚ :=
    ((competitors.map (fun c => (c.social_handles.length : ℚ))).sum) / (competitors.length : ℚ)
  let social_presence : String :=
    if (primary_social_count : ℚ) > avg_competitor_social then "strong"
    else if (primary_social_count : ℚ) < avg_competitor_social then "weak"
    else "average"
  let primary_types := lowerProductTypes primary_brand.product_catalog
  let competitor_types := pyDedup (competitors.flatMap fun c =>
    lowerProductTypes c.product_catalog)
  let overlap := (primary_types.filter (fun t => t ∈ competitor_types)).length
  let unique_primary := (primary_types.filter (fun t => t ∉ competitor_types)).length
  let product_diversity : String :=
    if unique_primary > overlap then "unique_offerings"
    else if overlap > unique_primary then "similar_to_market"
    else "balanced_portfolio"
  { market_position := market_position
    product_diversity := product_diversity
    price_positioning := "unknown"
    social_presence := social_presence }

/-! ## `is_shopify_store` (src/scraper.py:62-86) -/

/-- The JSON value returned by a successful `/products.json` fetch, as the
code observes it: whether the top-level object carries a `products` key (and
the array stored there), and how many other keys it has (which decides the
dict's Python truthiness). -/
structure FeedJson where
  productsKey : Option (List String) := none
  otherKeyCount : Nat := 0
deriving DecidableEq, Repr

/-- Python truthiness of the decoded feed dict: non-empty. -/
def FeedJson.isTruthy (j : FeedJson) : Bool :=
  j.productsKey.isSome || decide (0 < j.otherKeyCount)

/-- The root document, abstracted to the four `soup.find` probes that
`is_shopify_store` performs on it. -/
structure RootDoc where
  hasShopifyGeneratorMeta : Bool := false
  hasShopifyScript : Bool := false
  hasShopifyText : Bool := false
  hasShopifyLink : Bool := false
deriving DecidableEq, Repr

/-- `any(indicator for indicator in shopify_indicators)`. -/
def RootDoc.hasShopifyIndicator (d : RootDoc) : Bool :=
  d.hasShopifyGeneratorMeta || d.hasShopifyScript || d.hasShopifyText || d.hasShopifyLink

/-- `ShopifyScraper.is_shopify_store`, over the outcomes of its two fetches
(`get_products_json` returns `none` on request/JSON failure; the root fetch
returns `none` when `get_page_content` fails).  The code returns `True` as
soon as the decoded feed is truthy and contains a `products` key — the
emptiness of the products array is never inspected. -/
def is_shopify_store (feed : Option FeedJson) (root : Option RootDoc) : Bool :=
  match feed with
  | some j =>
    if j.isTruthy && j.productsKey.isSome then true
    else
      match root with
      | some d => d.hasShopifyIndicator
      | none => false
  | none =>
    match root with
    | some d => d.hasShopifyIndicator
    | none => false

/-! ## `extract_social_links` (src/scraper.py:88-122) -/

/-- Splits `cs` at the first occurrence of the substring `pat`, returning the
part before it and the part after it. -/
def splitAtSub (pat : List Char) : List Char → Option (List Char × List Char)
  | [] => if pat.isEmpty then some ([], []) else none
  | c :: rest =>
    if pat.isPrefixOf (c :: rest) then some ([], (c :: rest).drop pat.length)
    else
      match splitAtSub pat rest with
      | some (before, after) => some (c :: before, after)
      | none => none

/-- The scheme-plus-host part of an absolute URL (text up to the first `/`
after `://`). -/
def urlOrigin (base : String) : String :=
  match splitAtSub "://".data base.data with
  | some (before, after) =>
    String.mk (before ++ "://".data ++ after.takeWhile (fun c => c ≠ '/'))
  | none => base

/-- `urljoin(base_url, href)` for the root-relative hrefs the scraper
resolves (those starting with `/`): origin of the base plus the path. -/
def urljoinRoot (base href : String) : String :=
  urlOrigin base ++ href

/-- A character excluded by the capture class `[^/\s?]`. -/
def isCaptureStop (c : Char) : Bool :=
  c = '/' || c = '?' || c.isWhitespace

/-- At the current position, try to match the literal `marker`, then one of
the optional leading alternatives (ending with the empty alternative, as the
regexes' optional groups admit), then capture a non-empty maximal run of
characters outside `[/\s?]`. -/
def captureAt (marker : List Char) (leads : List (List Char)) (s : List Char) :
    Option (List Char) :=
  if marker.isPrefixOf s then
    let after := s.drop marker.length
    leads.findSome? fun l =>
      if l.isPrefixOf after then
        let cap := (after.drop l.length).takeWhile (fun c => !isCaptureStop c)
        if cap.isEmpty then none else some cap
      else none
  else none

/-- Leftmost search for `captureAt` over the string, as `re.search` does. -/
def searchCapture (marker : List Char) (leads : List (List Char)) :
    List Char → Option (List Char)
  | [] => none
  | c :: rest =>
    match captureAt marker leads (c :: rest) with
    | some cap => some cap
    | none => searchCapture marker leads rest

/-- The seven platform patterns of `extract_social_links`, each reduced to a
literal domain marker plus the optional leading alternatives of its regex
(the final empty alternative realizes the `?` on the optional group). -/
def socialPatterns : List (String × String × List String) :=
  [ ("instagram", "instagram.com/", [""]),
    ("facebook", "facebook.com/", [""]),
    ("twitter", "twitter.com/", [""]),
    ("tiktok", "tiktok.com/", ["@", ""]),
    ("youtube", "youtube.com/", ["c/", "channel/", "user/", ""]),
    ("linkedin", "linkedin.com/", ["company/", "in/", ""]),
    ("pinterest", "pinterest.com/", [""]) ]

/-- Body of the anchor loop of `extract_social_links`: lowercase the href,
skip falsy ones, resolve root-relative ones against the base URL, and emit
one entry per platform whose pattern matches. -/
def anchorSocialEntries (base_url : String) (raw : String) : List SocialHandle :=
  let href := pyLower raw
  if href.isEmpty then []
  else
    let href := if pyStartsWith href "/" then urljoinRoot base_url href else href
    socialPatterns.filterMap fun pat =>
      match searchCapture pat.2.1.data (pat.2.2.map String.data) href.data with
      | some cap => some { platform := pat.1, url := href, handle := some (String.mk cap) }
      | none => none

/-- `ShopifyScraper.extract_social_links`, over the ordered list of anchor
hrefs of the document: every anchor's matches are appended in order —
nothing is deduplicated. -/
def extract_social_links (anchorHrefs : List String) (base_url : String) :
    List SocialHandle :=
  anchorHrefs.flatMap (anchorSocialEntries base_url)

/-! ## `extract_policies` (src/scraper.py:187-227) -/

/-- Python `str.title()` for the category names at hand: a letter following a
non-letter is uppercased, every other letter lowercased. -/
def pyTitleAux : List Char → Bool → List Char
  | [], _ => []
  | c :: rest, prevAlpha =>
    if c.isAlpha then
      (if prevAlpha then c.toLower else c.toUpper) :: pyTitleAux rest true
    else
      c :: pyTitleAux rest false

/-- `s.replace('_', ' ').title()`. -/
def humanizePolicyName (s : String) : String :=
  String.mk (pyTitleAux (s.data.map fun c => if c = '_' then ' ' else c) false)

/-- The outcome of probing one candidate policy path, as `extract_policies`
observes it: `none` when the fetch fails (or the candidate's body raises —
both are skipped identically by the per-candidate `try/except`);
`some none` when the page parses but no `main`/`article`/content-class
element is found; `some (some text)` with the content element's
space-stripped text otherwise. -/
abbrev PolicyPageFetch := Option (Option String)

/-- Inner loop of `extract_policies` for one category: probe the candidate
paths in order; the first candidate whose content text has length `> 100`
becomes the policy (title humanized, content truncated to 2000 characters,
URL the resolved candidate path) and the loop `break`s; otherwise probing
continues, and the category stays `none`. -/
def resolvePolicyCategory (policy_name : String) :
    List (String × PolicyPageFetch) → Option Policy
  | [] => none
  | (full_url, fetched) :: rest =>
    match fetched with
    | some (some content) =>
      if content.length > 100 then
        some { title := humanizePolicyName policy_name,
               content := String.mk (content.data.take 2000),
               url := some full_url }
      else resolvePolicyCategory policy_name rest
    | _ => resolvePolicyCategory policy_name rest

/-- The result dictionary of `extract_policies`: the five fixed categories. -/
structure PoliciesResult where
  privacy_policy : Option Policy := none
  return_policy : Option Policy := none
  refund_policy : Option Policy := none
  terms_of_service : Option Policy := none
  shipping_policy : Option Policy := none
deriving DecidableEq, Repr

/-- The fixed candidate path lists of `extract_policies`, per category. -/
def policyUrls : List (String × List String) :=
  [ ("privacy_policy", ["/pages/privacy-policy", "/privacy-policy", "/pages/privacy"]),
    ("return_policy", ["/pages/returns", "/pages/return-policy", "/returns"]),
    ("refund_policy", ["/pages/refunds", "/pages/refund-policy", "/refunds"]),
    ("terms_of_service", ["/pages/terms-of-service", "/terms", "/pages/terms"]),
    ("shipping_policy", ["/pages/shipping-policy", "/pages/shipping", "/shipping"]) ]

/-- Candidate list for one category: each path resolved against the base URL
and paired with its fetch outcome. -/
def policyCandidates (base_url : String) (fetch : String → PolicyPageFetch)
    (paths : List String) : List (String × PolicyPageFetch) :=
  paths.map fun p =>
    let full := urljoinRoot base_url p
    (full, fetch full)

/-- `ShopifyScraper.extract_policies`, over a fetch oracle mapping each
resolved candidate URL to its probe outcome.  Categories are resolved
independently. -/
def extract_policies (base_url : String) (fetch : String → PolicyPageFetch) :
    PoliciesResult :=
  let resolve := fun name =>
    match policyUrls.lookup name with
    | some paths => resolvePolicyCategory name (policyCandidates base_url fetch paths)
    | none => none
  { privacy_policy := resolve "privacy_policy"
    return_policy := resolve "return_policy"
    refund_policy := resolve "refund_policy"
    terms_of_service := resolve "terms_of_service"
    shipping_policy := resolve "shipping_policy" }

/-! ## `analyze_competitor_similarity` (src/llm_service.py:198-242) -/

/-- Digits of a run, as a natural number; `none` on the empty run. -/
def digitsToNat : List Char → Option Nat
  | [] => none
  | ds => some (ds.foldl (fun acc c => acc * 10 + (c.toNat - '0'.toNat)) 0)

/-- Exponent tail of a float literal: empty, or `e`/`E` with an optional
sign and a non-empty digit run; scales the mantissa by the power of ten. -/
def parseFloatExp (v : ℚ) : List Char → Option ℚ
  | [] => some v
  | c :: rest =>
    if c = 'e' ∨ c = 'E' then
      let signApplied : Bool × List Char :=
        match rest with
        | '-' :: r => (true, r)
        | '+' :: r => (false, r)
        | r => (false, r)
      let ds := signApplied.2.takeWhile Char.isDigit
      if ds.length = signApplied.2.length then
        match digitsToNat ds with
        | some e => some (if signApplied.1 then v / (10 : ℚ) ^ e else v * (10 : ℚ) ^ e)
        | none => none
      else none
    else none

/-- Unsigned part of a Python float literal: `digits`, `digits.digits`,
`digits.` or `.digits`, with an optional exponent. -/
def parseFloatUnsigned (cs : List Char) : Option ℚ :=
  let intDs := cs.takeWhile Char.isDigit
  let rest := cs.drop intDs.length
  match rest with
  | '.' :: rest2 =>
    let fracDs := rest2.takeWhile Char.isDigit
    let rest3 := rest2.drop fracDs.length
    if intDs.isEmpty && fracDs.isEmpty then none
    else
      let intVal : ℚ := ((digitsToNat intDs).getD 0 : Nat)
      let fracVal : ℚ := (((digitsToNat fracDs).getD 0 : Nat) : ℚ) / (10 : ℚ) ^ fracDs.length
      parseFloatExp (intVal + fracVal) rest3
  | _ =>
    if intDs.isEmpty then none
    else parseFloatExp (((digitsToNat intDs).getD 0 : Nat) : ℚ) rest

/-- Python `float(s)` on finite decimal literals (the responses the prompt
asks for), evaluated exactly over `ℚ`: optional surrounding whitespace and
sign, then an unsigned literal.  The special spellings `inf`/`nan` and digit
underscores are outside the model; `none` models the `ValueError` branch. -/
def pyFloat (s : String) : Option ℚ :=
  match (pyStrip s).data with
  | '-' :: rest => (parseFloatUnsigned rest).map Neg.neg
  | '+' :: rest => parseFloatUnsigned rest
  | cs => parseFloatUnsigned cs

/-- `LLMService.analyze_competitor_similarity`, over the capability's enabled
flag and the outcome of the chat call (`Except.error` when the API call
raises, `Except.ok content` with the raw message text otherwise).  The code
returns `float(content.strip())` unvalidated; any exception — including the
`ValueError` of an unparseable response — is caught and degrades to `0.0`. -/
def analyze_competitor_similarity (enabled : Bool)
    (response : Except String String) : ℚ :=
  if !enabled then 0
  else
    match response with
    | .error _ => 0
    | .ok content =>
      match pyFloat (pyStrip content) with
      | some v => v
      | none => 0

/-! ## `extract_all_insights` (src/insights_extractor.py:17-98) -/

/-- `InsightsExtractor._get_products_by_handles`
(src/insights_extractor.py:153-162): keep the catalog products whose handle
lies in the handle set (a `None` handle is never a member of a set of
strings). -/
def get_products_by_handles (products : List Product) (handles : List String) :
    List Product :=
  products.filter fun p =>
    match p.handle with
    | some h => handles.contains h
    | none => false

/-- Outcomes of every effectful call `extract_all_insights` makes, one field
per call site.  The two store-check fetches feed `is_shopify_store`;
`homepage_ok` says whether `get_page_content` on the homepage produced a
parse; each later stage is an `Except` oracle whose `error` carries
`str(e)` of the exception the stage raised (the scraper stages mostly catch
internally, but the `try` block of the assembler guards every one of them).
`_extract_currency` and `_extract_country` swallow their exceptions and
return a value, so they are plain `Option` fields. -/
structure ScrapeEnv where
  feed : Option FeedJson := none
  root : Option RootDoc := none
  homepage_ok : Bool := true
  brand_info : Except String (Option String × Option String) := .ok (none, none)
  products : Except String (List Product) := .ok []
  hero_handles : Except String (List String) := .ok []
  social_links : Except String (List SocialHandle) := .ok []
  contact : Except String ContactInfo := .ok {}
  faqs : Except String (List FAQ) := .ok []
  policies : Except String PoliciesResult := .ok {}
  links : Except String (List ImportantLink) := .ok []
  currency : Option String := none
  country : Option String := none

/-- The `except` handler of the assembler's `try` block: flag the context as
a partial extraction and append the note built from the exception text. -/
def failPartial (ctx : BrandContext) (e : String) : BrandContext :=
  { ctx with
    extraction_success := false
    extraction_notes := ctx.extraction_notes ++ ["Partial extraction due to error: " ++ e] }

/-- Body of the assembler's `try` block, threading the partially-built
`BrandContext` through the stages in source order; the first stage to raise
transfers control to `failPartial` with the fields set so far. -/
def extractTryBody (env : ScrapeEnv) (ctx : BrandContext) : BrandContext :=
  match env.brand_info with
  | .error e => failPartial ctx e
  | .ok bi =>
  let ctx := { ctx with brand_name := bi.1, about_brand := bi.2 }
  match env.products with
  | .error e => failPartial ctx e
  | .ok products =>
  let ctx := { ctx with product_catalog := products, total_products := products.length }
  match env.hero_handles with
  | .error e => failPartial ctx e
  | .ok handles =>
  let ctx := { ctx with hero_products := get_products_by_handles products handles }
  match env.social_links with
  | .error e => failPartial ctx e
  | .ok socials =>
  let ctx := { ctx with social_handles := socials }
  match env.contact with
  | .error e => failPartial ctx e
  | .ok contact =>
  let ctx := { ctx with contact_info := contact }
  match env.faqs with
  | .error e => failPartial ctx e
  | .ok faqs =>
  let ctx := { ctx with faqs := faqs }
  match env.policies with
  | .error e => failPartial ctx e
  | .ok pol =>
  let ctx := { ctx with
    privacy_policy := pol.privacy_policy
    return_policy := pol.return_policy
    refund_policy := pol.refund_policy
    terms_of_service := pol.terms_of_service
    shipping_policy := pol.shipping_policy }
  match env.links with
  | .error e => failPartial ctx e
  | .ok links =>
  let ctx := { ctx with important_links := links }
  let ctx := { ctx with currency := env.currency, country := env.country }
  { ctx with
    extraction_notes :=
      ctx.extraction_notes ++ ["Successfully extracted data from " ++ ctx.website_url]
    extraction_success := true }

/-- The scheme normalization at the top of `extract_all_insights`. -/
def normalizeUrl (website_url : String) : String :=
  if pyStartsWith website_url "http://" || pyStartsWith website_url "https://" then
    website_url
  else "https://" ++ website_url

/-- `InsightsExtractor.extract_all_insights`: scheme normalization, the
fatal store-type precondition (`ValueError`), the fatal homepage-fetch check
(`Exception`), then the guarded stage pipeline that always returns a
context.  `Except.error` carries the two propagated exception messages. -/
def extract_all_insights (website_url : String) (env : ScrapeEnv) :
    Except String BrandContext :=
  if !is_shopify_store env.feed env.root then
    .error "The provided URL does not appear to be a Shopify store"
  else if !env.homepage_ok then
    .error "Could not fetch website content"
  else
    .ok (extractTryBody env { website_url := normalizeUrl website_url })

/-- The first stage (in source order) of the assembler's `try` block that
raises, if any — the exception the `except` handler sees. -/
def firstStageError (env : ScrapeEnv) : Option String :=
  match env.brand_info with
  | .error e => some e
  | .ok _ =>
  match env.products with
  | .error e => some e
  | .ok _ =>
  match env.hero_handles with
  | .error e => some e
  | .ok _ =>
  match env.social_links with
  | .error e => some e
  | .ok _ =>
  match env.contact with
  | .error e => some e
  | .ok _ =>
  match env.faqs with
  | .error e => some e
  | .ok _ =>
  match env.policies with
  | .error e => some e
  | .ok _ =>
  match env.links with
  | .error e => some e
  | .ok _ => none

/-! ## `analyze_competitors` (src/competitor_service.py:22-175) -/

/-- Python's substring test `pat in s`. -/
def containsSub (pat s : List Char) : Bool :=
  (splitAtSub pat s).isSome

/-- The curated `shopify_stores_by_category` table of `find_competitor_urls`,
in dict insertion order. -/
def shopifyStoresByCategory : List (String × List String) :=
  [ ("beauty",
     ["https://colourpop.com", "https://jeffreestarcosmetics.com",
      "https://fentybeauty.com", "https://glossier.com"]),
    ("fashion",
     ["https://fashionnova.com", "https://gymshark.com",
      "https://cupshe.com", "https://shein.com"]),
    ("cosmetics",
     ["https://colourpop.com", "https://jeffreestarcosmetics.com",
      "https://rarebeauty.com"]),
    ("clothing",
     ["https://fashionnova.com", "https://memy.co.in", "https://gymshark.com"]),
    ("accessories",
     ["https://pandora.net", "https://danielwellington.com"]) ]

/-- `CompetitorAnalysisService.find_competitor_urls`: for every search term
and table category, when the lowered term contains the category name or one
of the broadened keywords, collect the category's first 2 URLs; then
set-deduplicate (first-occurrence order, see `pyDedup`) and cap. -/
def find_competitor_urls (search_terms : List String) (max_results : Nat) :
    List String :=
  let collected := search_terms.flatMap fun term =>
    let t := pyLower term
    shopifyStoresByCategory.flatMap fun cat =>
      if [cat.1, "women", "men", "apparel", "makeup"].any
          (fun kw => containsSub kw.data t.data) then
        cat.2.take 2
      else []
  (pyDedup collected).take max_results

/-- Python `x or alt` on an optional string field (falsy on `None` and `""`). -/
def pyOrString (o : Option String) (alt : String) : String :=
  match o with
  | some s => if s.isEmpty then alt else s
  | none => alt

/-- `CompetitorAnalysisService._create_analysis_summary`.  The competitor
average is an exact `ℚ`; the `:.0f` rendering is modelled by `round`
(Python's tie-to-even differs from `round` only on exact `.5` ties, which no
claim exercises). -/
def create_analysis_summary (primary_brand : BrandContext)
    (competitors : List BrandContext) (search_terms : List String) : String :=
  let base :=
    [ "Competitor Analysis for " ++ pyOrString primary_brand.brand_name primary_brand.website_url,
      "Search terms used: " ++ String.intercalate ", " (search_terms.take 5),
      "Found " ++ toString competitors.length ++ " competitor(s)" ]
  let parts :=
    if competitors.isEmpty then base
    else
      let avg : ℚ :=
        ((competitors.map (fun c => (c.total_products : ℚ))).sum) / (competitors.length : ℚ)
      base ++
        [ "Competitors analyzed: " ++ String.intercalate ", "
            (competitors.map fun c => pyOrString c.brand_name c.website_url),
          "Product catalog size - Primary: " ++ toString primary_brand.total_products ++
            ", Competitors avg: " ++ toString (round avg : ℤ) ]
  String.intercalate " | " parts

/-- Outcomes of the effectful calls `analyze_competitors` makes.
`llm_terms` is the result of `generate_competitor_search_terms` (consulted
only when the capability is enabled); `extractOutcome url` is the result of
running the full assembler on a candidate (`error` when it raises);
`simNote url` stands for the formatted `"Similarity score: %.2f"` text the
code appends to a candidate when the capability is enabled. -/
structure CompetitorEnv where
  llm_enabled : Bool := false
  llm_terms : Except String (List String) := .ok []
  extractOutcome : String → Except String BrandContext := fun _ => .error "unreachable"
  simNote : String → String := fun _ => "Similarity score: 0.00"

/-- The per-candidate loop of `analyze_competitors`: a candidate whose
extraction raises is skipped by the inner `try/except`; a successful one is
kept (with the similarity note appended when the capability is enabled). -/
def analyzeCandidates (env : CompetitorEnv) (urls : List String) :
    List BrandContext :=
  urls.filterMap fun url =>
    match env.extractOutcome url with
    | .error _ => none
    | .ok ctx =>
      some (if env.llm_enabled then
              { ctx with extraction_notes := ctx.extraction_notes ++ [env.simNote url] }
            else ctx)

/-- Body of the outer `try` block of `analyze_competitors`:
search-term generation (capability or fallback), candidate resolution,
primary-URL exclusion, per-candidate analysis, summary assembly. -/
def competitorTryBody (primary_brand : BrandContext) (max_competitors : Nat)
    (env : CompetitorEnv) : Except String CompetitorAnalysis := do
  let llmTerms ← if env.llm_enabled then env.llm_terms else pure []
  let search_terms :=
    if llmTerms.isEmpty then generate_fallback_search_terms primary_brand else llmTerms
  let competitor_urls :=
    (find_competitor_urls search_terms (max_competitors * 2)).filter
      fun url => url ≠ primary_brand.website_url
  let competitors := analyzeCandidates env (competitor_urls.take max_competitors)
  pure { primary_brand := primary_brand
         competitors := competitors
         analysis_summary :=
           some (create_analysis_summary primary_brand competitors search_terms) }

/-- `CompetitorAnalysisService.analyze_competitors`: the outer catch-all
turns any propagating exception into a `CompetitorAnalysis` with the same
primary brand, no competitors, and a failure summary. -/
def analyze_competitors (primary_brand : BrandContext) (max_competitors : Nat)
    (env : CompetitorEnv) : CompetitorAnalysis :=
  match competitorTryBody primary_brand max_competitors env with
  | .ok result => result
  | .error e =>
    { primary_brand := primary_brand
      competitors := []
      analysis_summary := some ("Competitor analysis failed: " ++ e) }

/-! ## Concrete instances used by the theorems below -/

/-- A three-product catalog with distinct handles `a`, `b`, `c`. -/
def prodA : Product := { title := "A", handle := some "a" }

/-- Second catalog product. -/
def prodB : Product := { title := "B", handle := some "b" }

/-- Third catalog product. -/
def prodC : Product := { title := "C", handle := some "c" }

/-- The ColourPop-style brand of the fallback-search-term claim: product
types `lipstick`, `lipstick`, `eyeshadow`; brand name "ColourPop Cosmetics". -/
def colourpopBrand : BrandContext :=
  { website_url := "https://colourpop.com"
    brand_name := some "ColourPop Cosmetics"
    product_catalog :=
      [ { title := "p1", product_type := some "lipstick", handle := some "p1" },
        { title := "p2", product_type := some "lipstick", handle := some "p2" },
        { title := "p3", product_type := some "eyeshadow", handle := some "p3" } ] }

/-- Environment whose first pipeline stage raises `boom` (the store check
passes because the feed carries a `products` key). -/
def envBrandInfoFails : ScrapeEnv :=
  { feed := some { productsKey := some ["x"] }
    brand_info := .error "boom" }

/-- Environment where every stage succeeds, the catalog is `a`/`b`/`c` and
the homepage references handles `a`, `c`, `z`. -/
def envHero : ScrapeEnv :=
  { feed := some { productsKey := some ["x"] }
    products := .ok [prodA, prodB, prodC]
    hero_handles := .ok ["a", "c", "z"] }

/-- A feed probe result whose `products` array is empty, and a root document
with no platform marker. -/
def emptyFeed : FeedJson := { productsKey := some [] }

/-- Root document carrying none of the four Shopify indicators. -/
def markerlessRoot : RootDoc := {}

/-- A 100-character content string. -/
def content100 : String := String.mk (List.replicate 100 'a')

/-- A 101-character content string. -/
def content101 : String := String.mk (List.replicate 101 'a')

/-- Policy-page fetch oracle: the first privacy candidate path yields a
100-character content block; every other probe fails. -/
def fetch100 : String → PolicyPageFetch := fun url =>
  if url = "https://x.com/pages/privacy-policy" then some (some content100) else none

/-- The two duplicate Instagram anchors of the social-link claim. -/
def dupAnchors : List String :=
  ["https://instagram.com/brandx", "https://instagram.com/brandx"]

/-- A primary brand with 120 products. -/
def brand120 : BrandContext := { website_url := "https://p.example", total_products := 120 }

/-- A primary brand with 121 products. -/
def brand121 : BrandContext := { website_url := "https://p.example", total_products := 121 }

/-- A competitor with 100 products (competitor average 100). -/
def comp100 : BrandContext := { website_url := "https://c.example", total_products := 100 }

/-- A minimal primary brand for the competitor-analysis witnesses. -/
def primaryX : BrandContext := { website_url := "https://p.example" }

/-- Competitor environment whose search-term capability call raises. -/
def envLLMFails : CompetitorEnv :=
  { llm_enabled := true
    llm_terms := .error "api down" }

/-- Competitor environment where `https://bad.example` fails extraction and
every other candidate succeeds with a trivial context. -/
def envOneBadCandidate : CompetitorEnv :=
  { llm_enabled := false
    extractOutcome := fun url =>
      if url = "https://bad.example" then .error "timeout"
      else .ok { website_url := url } }

/-! ## Invariant lemmas on the assembler's `try` body -/

/-- `extractTryBody` preserves `total_products = |product_catalog|`. -/
lemma extractTryBody_count_inv (env : ScrapeEnv) (ctx : BrandContext)
    (h : ctx.total_products = ctx.product_catalog.length) :
    (extractTryBody env ctx).total_products =
      (extractTryBody env ctx).product_catalog.length := by
  obtain ⟨fe, ro, hp, bi, ps, hh, sl, co, fa, po, li, cu, cn⟩ := env
  cases bi <;> cases ps <;> cases hh <;> cases sl <;> cases co <;> cases fa <;>
    cases po <;> cases li <;> simp [extractTryBody, failPartial, h]

/-- Starting from a context with no hero products (as the assembler does),
`extractTryBody` establishes `hero_products ⊆ product_catalog`: the hero
stage filters exactly the list just installed as the catalog, and no later
stage touches either field. -/
lemma extractTryBody_hero_inv (env : ScrapeEnv) (ctx : BrandContext)
    (h : ctx.hero_products = []) :
    ∀ p ∈ (extractTryBody env ctx).hero_products,
      p ∈ (extractTryBody env ctx).product_catalog := by
  obtain ⟨fe, ro, hp, bi, ps, hh, sl, co, fa, po, li, cu, cn⟩ := env
  cases bi <;> cases ps <;> cases hh <;> cases sl <;> cases co <;> cases fa <;>
    cases po <;> cases li <;>
    simp only [extractTryBody, failPartial, get_products_by_handles, h] <;>
    first
      | (intro p hp; exact List.mem_of_mem_filter hp)
      | simp

/-! ## C1 -/

/-- C1: every `BrandContext` returned by `extract_all_insights` — on the
full-success path and on every partial-failure path alike — satisfies
`total_products = product_catalog.length`. -/
theorem extract_all_insights_total_products_eq_length
    (url : String) (env : ScrapeEnv) (ctx : BrandContext)
    (h : extract_all_insights url env = .ok ctx) :
    ctx.total_products = ctx.product_catalog.length := by
  unfold extract_all_insights at h
  split at h
  · exact absurd h (by simp)
  · split at h
    · exact absurd h (by simp)
    · cases h
      exact extractTryBody_count_inv _ _ rfl

/-- Witness for C1 at a concrete environment whose first stage raises. -/
theorem extract_all_insights_total_products_eq_length_witness :
    ∃ ctx, extract_all_insights "u" envBrandInfoFails = .ok ctx ∧
      ctx.total_products = ctx.product_catalog.length :=
  ⟨_, rfl, extract_all_insights_total_products_eq_length "u" envBrandInfoFails _ rfl⟩

/-! ## C2 -/

/-- C2: every hero product of a returned `BrandContext` has a handle that
appears among the catalog handles; and on the concrete catalog `a`/`b`/`c`
with homepage candidate handles `a`, `c`, `z`, `_get_products_by_handles`
yields exactly the catalog products `a` and `c` (`z` is silently dropped). -/
theorem hero_products_handles_in_catalog :
    (∀ (url : String) (env : ScrapeEnv) (ctx : BrandContext),
        extract_all_insights url env = .ok ctx →
        ∀ p ∈ ctx.hero_products, p.handle ∈ ctx.product_catalog.map Product.handle)
    ∧ get_products_by_handles [prodA, prodB, prodC] ["a", "c", "z"] = [prodA, prodC] := by
  constructor
  · intro url env ctx h p hp
    have hmem : p ∈ ctx.product_catalog := by
      revert hp
      unfold extract_all_insights at h
      split at h
      · exact absurd h (by simp)
      · split at h
        · exact absurd h (by simp)
        · cases h
          exact extractTryBody_hero_inv _ _ (by simp) p
    exact List.mem_map.mpr ⟨p, hmem, rfl⟩
  · decide

/-- Witness for C2 at a concrete environment: the homepage references
handles `a`, `c`, `z` against the catalog `a`/`b`/`c`. -/
theorem hero_products_handles_in_catalog_witness :
    ∃ ctx, extract_all_insights "u" envHero = .ok ctx ∧
      prodA ∈ ctx.hero_products ∧
      prodA.handle ∈ ctx.product_catalog.map Product.handle :=
  ⟨_, rfl, by decide,
    hero_products_handles_in_catalog.1 "u" envHero _ rfl prodA (by decide)⟩

/-! ## C3 -/

/-- C3 counterexample: the claim asserts that a feed probe returning a JSON
object with an empty `products` array falls through to the marker scan, so
that with no platform marker the result is `false`.  In the code,
`products_data and 'products' in products_data` is already satisfied by
`{"products": []}` (a non-empty dict carrying the key), so the function
returns `true` without ever consulting the root document. -/
theorem is_shopify_store_empty_feed_counterexample :
    is_shopify_store (some emptyFeed) (some markerlessRoot) = true := by
  decide

/-- C3 amended: `is_shopify_store` returns `true` exactly when the feed
probe yields a JSON object carrying the `products` key — regardless of
whether the products array is empty — or, failing that, when the root
document carries a platform marker; in particular an empty products array
with a markerless root document yields `true`, not `false`. -/
theorem is_shopify_store_feed_key_or_marker :
    (∀ (feed : Option FeedJson) (root : Option RootDoc),
        is_shopify_store feed root =
          ((match feed with
            | some j => j.productsKey.isSome
            | none => false) ||
           (match root with
            | some d => d.hasShopifyIndicator
            | none => false)))
    ∧ ∀ (ps : List String) (k : Nat) (root : Option RootDoc),
        is_shopify_store (some { productsKey := some ps, otherKeyCount := k }) root = true := by
  constructor
  · intro feed root
    cases feed with
    | none => cases root <;> simp [is_shopify_store]
    | some j =>
      cases hk : j.productsKey <;>
        cases root <;>
        simp [is_shopify_store, FeedJson.isTruthy, hk]
  · intro ps k root
    cases root <;> simp [is_shopify_store, FeedJson.isTruthy]

/-! ## C4 -/

/-- C4 counterexample: the claim asserts a candidate whose content block has
trimmed length 100 is accepted.  The code requires `len(content) > 100`, so
a 100-character privacy-policy page is rejected and — with every other probe
failing — the category stays `null`. -/
theorem extract_policies_hundred_rejected_counterexample :
    (extract_policies "https://x.com" fetch100).privacy_policy = none := by
  decide

/-- C4 amended: a candidate content block is accepted exactly when its
trimmed length strictly exceeds 100 characters (99 and 100 are both
rejected, with probing moving on to the next candidate); on acceptance the
stored content is truncated to at most 2000 characters, the URL is the
accepted candidate's, and no further candidates are probed for that
category. -/
theorem policy_threshold_truncation_shortcircuit :
    (∀ (name url : String) (rest : List (String × PolicyPageFetch)) (c : String),
        c.length ≤ 100 →
        resolvePolicyCategory name ((url, some (some c)) :: rest) =
          resolvePolicyCategory name rest)
    ∧ (∀ (name url : String) (rest : List (String × PolicyPageFetch)) (c : String),
        c.length > 100 →
        resolvePolicyCategory name ((url, some (some c)) :: rest) =
          some { title := humanizePolicyName name,
                 content := String.mk (c.data.take 2000),
                 url := some url })
    ∧ ∀ (name : String) (cands : List (String × PolicyPageFetch)) (p : Policy),
        resolvePolicyCategory name cands = some p → p.content.length ≤ 2000 := by
  refine ⟨?_, ?_, ?_⟩
  · intro name url rest c hc
    simp [resolvePolicyCategory, Nat.not_lt.mpr hc]
  · intro name url rest c hc
    simp [resolvePolicyCategory, hc]
  · intro name cands p h
    induction cands with
    | nil => simp [resolvePolicyCategory] at h
    | cons cand rest ih =>
      obtain ⟨url, fetched⟩ := cand
      match fetched with
      | none => exact ih (by simpa [resolvePolicyCategory] using h)
      | some none => exact ih (by simpa [resolvePolicyCategory] using h)
      | some (some content) =>
        by_cases hlen : content.length > 100
        · rw [resolvePolicyCategory] at h
          simp only [hlen, if_true] at h
          cases h
          exact List.length_take_le 2000 content.data
        · rw [resolvePolicyCategory] at h
          simp only [hlen, if_false] at h
          exact ih h

/-- Witness for C4 at concrete inputs: a 100-character candidate is skipped,
a 101-character candidate is accepted with its URL, and the accepted content
length bound holds at that acceptance. -/
theorem policy_threshold_truncation_shortcircuit_witness :
    (resolvePolicyCategory "privacy_policy" [("u1", some (some content100)), ("u2", none)] =
       resolvePolicyCategory "privacy_policy" [("u2", none)])
    ∧ (resolvePolicyCategory "privacy_policy" [("u1", some (some content101)), ("u2", none)] =
        some { title := humanizePolicyName "privacy_policy",
               content := String.mk (content101.data.take 2000),
               url := some "u1" })
    ∧ (String.mk (content101.data.take 2000)).length ≤ 2000 :=
  ⟨policy_threshold_truncation_shortcircuit.1 "privacy_policy" "u1" [("u2", none)]
      content100 (by decide),
   policy_threshold_truncation_shortcircuit.2.1 "privacy_policy" "u1" [("u2", none)]
      content101 (by decide),
   policy_threshold_truncation_shortcircuit.2.2 "privacy_policy"
      [("u1", some (some content101)), ("u2", none)] _
      (policy_threshold_truncation_shortcircuit.2.1 "privacy_policy" "u1" [("u2", none)]
        content101 (by decide))⟩

/-! ## C5 -/

/-- C5 counterexample: the claim asserts that the output contains exactly
one entry per distinct (platform, URL) pair.  The code appends an entry for
every matching anchor and never deduplicates, so the two identical
Instagram anchors yield two entries for the pair, not one. -/
theorem extract_social_links_duplicate_counterexample :
    ((extract_social_links dupAnchors "https://brandx.com").countP
        (fun s => (s.platform == "instagram") &&
          (s.url == "https://instagram.com/brandx"))) = 2
    ∧ ¬ ((extract_social_links dupAnchors "https://brandx.com").countP
        (fun s => (s.platform == "instagram") &&
          (s.url == "https://instagram.com/brandx"))) = 1 := by
  decide

/-- C5 amended: `extract_social_links` performs no deduplication — the
number of output entries satisfying any predicate is the sum over the
anchors of the matches each anchor contributes; in particular the two
anchors both pointing to `https://instagram.com/brandx` yield exactly two
`SocialHandle` entries for that (platform, URL) pair, one per anchor. -/
theorem extract_social_links_counts_per_anchor :
    (∀ (anchors : List String) (base : String) (p : SocialHandle → Bool),
        (extract_social_links anchors base).countP p =
          (anchors.map fun a => (anchorSocialEntries base a).countP p).sum)
    ∧ (extract_social_links dupAnchors "https://brandx.com" =
        anchorSocialEntries "https://brandx.com" "https://instagram.com/brandx" ++
          anchorSocialEntries "https://brandx.com" "https://instagram.com/brandx")
    ∧ ((extract_social_links dupAnchors "https://brandx.com").countP
        (fun s => (s.platform == "instagram") &&
          (s.url == "https://instagram.com/brandx"))) = 2 := by
  refine ⟨?_, by decide, by decide⟩
  intro anchors base p
  induction anchors with
  | nil => simp [extract_social_links]
  | cons a rest ih =>
    simp only [extract_social_links, List.flatMap_cons, List.countP_append,
      List.map_cons, List.sum_cons] at ih ⊢
    omega

/-! ## C6 -/

/-- When a stage of the `try` block raises, the returned context carries
`extraction_success = false` and the partial-failure note. -/
lemma extractTryBody_partial_note (env : ScrapeEnv) (ctx : BrandContext)
    (e : String) (h : firstStageError env = some e) :
    (extractTryBody env ctx).extraction_success = false ∧
      ("Partial extraction due to error: " ++ e) ∈
        (extractTryBody env ctx).extraction_notes := by
  obtain ⟨fe, ro, hp, bi, ps, hh, sl, co, fa, po, li, cu, cn⟩ := env
  cases bi <;> cases ps <;> cases hh <;> cases sl <;> cases co <;> cases fa <;>
    cases po <;> cases li <;>
    simp_all [extractTryBody, failPartial, firstStageError]

/-- When no stage raises, the returned context carries
`extraction_success = true`. -/
lemma extractTryBody_success_flag (env : ScrapeEnv) (ctx : BrandContext)
    (h : firstStageError env = none) :
    (extractTryBody env ctx).extraction_success = true := by
  obtain ⟨fe, ro, hp, bi, ps, hh, sl, co, fa, po, li, cu, cn⟩ := env
  cases bi <;> cases ps <;> cases hh <;> cases sl <;> cases co <;> cases fa <;>
    cases po <;> cases li <;>
    simp_all [extractTryBody, failPartial, firstStageError]

/-- C6: `extract_all_insights` propagates an error exactly when the
store-type check returns false or the initial homepage fetch fails; past
those two points a raising stage is caught — the result is still `ok`, with
`extraction_success = false` and a human-readable note appended — and with
no raising stage the success flag stays true. -/
theorem extract_all_insights_fatal_iff_and_catches
    (url : String) (env : ScrapeEnv) :
    ((∃ e, extract_all_insights url env = .error e) ↔
      (is_shopify_store env.feed env.root = false ∨ env.homepage_ok = false))
    ∧ (∀ ctx e, extract_all_insights url env = .ok ctx →
        firstStageError env = some e →
        ctx.extraction_success = false ∧
          ("Partial extraction due to error: " ++ e) ∈ ctx.extraction_notes)
    ∧ (∀ ctx, extract_all_insights url env = .ok ctx →
        firstStageError env = none → ctx.extraction_success = true) := by
  refine ⟨?_, ?_, ?_⟩
  · unfold extract_all_insights
    by_cases h1 : is_shopify_store env.feed env.root <;>
      by_cases h2 : env.homepage_ok <;> simp [h1, h2]
  · intro ctx e h hf
    unfold extract_all_insights at h
    split at h
    · exact absurd h (by simp)
    · split at h
      · exact absurd h (by simp)
      · cases h
        exact extractTryBody_partial_note env _ e hf
  · intro ctx h hf
    unfold extract_all_insights at h
    split at h
    · exact absurd h (by simp)
    · split at h
      · exact absurd h (by simp)
      · cases h
        exact extractTryBody_success_flag env _ hf

/-- Witness for C6: a default environment fails the store check fatally; the
environment whose first stage raises still yields an `ok` context flagged as
a partial extraction. -/
theorem extract_all_insights_fatal_iff_and_catches_witness :
    (∃ e, extract_all_insights "u" {} = .error e)
    ∧ ∃ ctx, extract_all_insights "u" envBrandInfoFails = .ok ctx ∧
        ctx.extraction_success = false ∧
        ("Partial extraction due to error: " ++ "boom") ∈ ctx.extraction_notes :=
  ⟨(extract_all_insights_fatal_iff_and_catches "u" {}).1.mpr (Or.inl rfl),
   ⟨_, rfl, (extract_all_insights_fatal_iff_and_catches "u" envBrandInfoFails).2.1
      _ "boom" rfl rfl⟩⟩

/-! ## C7 -/

/-- C7 counterexample: the claim asserts the similarity result always lies
in `[0.0, 1.0]`, with out-of-range capability responses degrading to `0.0`.
The code returns `float(content)` unvalidated, so the parseable response
`"1.5"` is returned as `1.5`. -/
theorem similarity_out_of_range_counterexample :
    ¬ (0 ≤ analyze_competitor_similarity true (.ok "1.5") ∧
       analyze_competitor_similarity true (.ok "1.5") ≤ 1) := by
  intro hcontra
  have h1 : analyze_competitor_similarity true (.ok "1.5") =
      ((1 : Nat) : ℚ) + ((5 : Nat) : ℚ) / (10 : ℚ) ^ (1 : Nat) := rfl
  rw [h1] at hcontra
  norm_num at hcontra

/-- C7 amended: a disabled capability, a raising chat call, or an
unparseable response all yield `0.0`; but a parseable response is returned
unchanged, with no range validation — the result lies in `[0.0, 1.0]` only
when the parsed value does. -/
theorem similarity_unvalidated :
    (∀ resp, analyze_competitor_similarity false resp = 0)
    ∧ (∀ e, analyze_competitor_similarity true (.error e) = 0)
    ∧ (∀ s, pyFloat (pyStrip s) = none →
        analyze_competitor_similarity true (.ok s) = 0)
    ∧ (∀ s q, pyFloat (pyStrip s) = some q →
        analyze_competitor_similarity true (.ok s) = q) := by
  refine ⟨fun resp => rfl, fun e => rfl, fun s h => ?_, fun s q h => ?_⟩ <;>
    simp [analyze_competitor_similarity, h]

/-- Witness for C7 at concrete responses: an unparseable response degrades
to `0`, and the in-range response `"0.5"` is returned as `1/2`. -/
theorem similarity_unvalidated_witness :
    analyze_competitor_similarity true (.ok "not a number") = 0
    ∧ analyze_competitor_similarity true (.ok "0.5") = 1/2 := by
  constructor
  · exact similarity_unvalidated.2.2.1 "not a number" rfl
  · refine similarity_unvalidated.2.2.2 "0.5" (1/2) ?_
    have h1 : pyFloat (pyStrip "0.5") =
        some (((0 : Nat) : ℚ) + ((5 : Nat) : ℚ) / (10 : ℚ) ^ (1 : Nat)) := rfl
    rw [h1]
    norm_num

/-! ## C8 -/

/-- C8: on the ColourPop brand (product types `lipstick`, `lipstick`,
`eyeshadow`; brand name "ColourPop Cosmetics") with the capability disabled,
the fallback search terms number at most 8, contain no duplicates, and are
drawn from the deduplicated lowercased product types, the tokenized
brand-name words, and the generic category terms. -/
theorem fallback_terms_bounded_nodup_sourced :
    (generate_fallback_search_terms colourpopBrand).length ≤ 8
    ∧ (generate_fallback_search_terms colourpopBrand).Nodup
    ∧ ∀ t ∈ generate_fallback_search_terms colourpopBrand,
        t ∈ (["lipstick", "eyeshadow"] ++ ["colourpop", "cosmetics"] ++
          ["fashion", "beauty", "cosmetics", "clothing", "accessories"]) := by
  decide

/-! ## C9 -/

/-- C9: `market_position` is `large_catalog` exactly when the primary's
product count strictly exceeds `1.2 ×` the competitors' average; a primary
of 120 against an average of 100 (ratio exactly 1.2) yields
`average_catalog`, while 121 against the same average yields
`large_catalog`. -/
theorem market_position_large_catalog_iff :
    (∀ (primary : BrandContext) (comps : List BrandContext), comps ≠ [] →
        ((get_market_insights primary comps).market_position = "large_catalog" ↔
          ((primary.total_products : ℚ) >
            ((comps.map fun c => (c.total_products : ℚ)).sum / (comps.length : ℚ)) *
              (6/5))))
    ∧ (get_market_insights brand120 [comp100]).market_position = "average_catalog"
    ∧ (get_market_insights brand121 [comp100]).market_position = "large_catalog" := by
  refine ⟨?_, ?_, ?_⟩
  case refine_2 =>
    simp only [get_market_insights, brand120, comp100, List.isEmpty_cons, List.map_cons,
      List.map_nil, List.sum_cons, List.sum_nil, List.length_cons, List.length_nil]
    norm_num
  case refine_3 =>
    simp only [get_market_insights, brand121, comp100, List.isEmpty_cons, List.map_cons,
      List.map_nil, List.sum_cons, List.sum_nil, List.length_cons, List.length_nil]
    norm_num
  intro primary comps h
  have hne : comps.isEmpty = false := by
    cases comps with
    | nil => exact absurd rfl h
    | cons a l => rfl
  simp only [get_market_insights, hne, Bool.false_eq_true, if_false]
  split_ifs with h1 h2
  · simpa using h1
  · exact iff_of_false (by decide) h1
  · exact iff_of_false (by decide) h1

/-- Witness for C9 at the concrete 120-vs-100 instance. -/
theorem market_position_large_catalog_iff_witness :
    (get_market_insights brand120 [comp100]).market_position = "large_catalog" ↔
      ((brand120.total_products : ℚ) >
        (([comp100].map fun c => (c.total_products : ℚ)).sum /
          (([comp100] : List BrandContext).length : ℚ)) * (6/5)) :=
  market_position_large_catalog_iff.1 brand120 [comp100] (by simp)

/-! ## C10 -/

/-- Any `ok` result of the competitor `try` body carries the primary brand. -/
lemma competitorTryBody_primary (primary : BrandContext) (m : Nat)
    (env : CompetitorEnv) (r : CompetitorAnalysis)
    (h : competitorTryBody primary m env = .ok r) :
    r.primary_brand = primary := by
  unfold competitorTryBody at h
  by_cases he : env.llm_enabled
  · cases hl : env.llm_terms with
    | error e => simp [he, hl, Except.bind] at h
    | ok terms =>
      simp only [he, hl, if_true, Except.bind] at h
      cases h
      rfl
  · simp only [he, if_false, Except.bind] at h
    cases h
    rfl

/-- C10: `analyze_competitors` is total — every result carries the given
primary brand; a body-level error yields the empty competitor list and a
failure summary; and a failing candidate is skipped without disturbing the
candidates before or after it. -/
theorem analyze_competitors_total_and_skips :
    (∀ (primary : BrandContext) (m : Nat) (env : CompetitorEnv),
        (analyze_competitors primary m env).primary_brand = primary)
    ∧ (∀ (primary : BrandContext) (m : Nat) (env : CompetitorEnv) (e : String),
        competitorTryBody primary m env = .error e →
        analyze_competitors primary m env =
          { primary_brand := primary, competitors := [],
            analysis_summary := some ("Competitor analysis failed: " ++ e) })
    ∧ (∀ (env : CompetitorEnv) (pre post : List String) (url e : String),
        env.extractOutcome url = .error e →
        analyzeCandidates env (pre ++ url :: post) =
          analyzeCandidates env pre ++ analyzeCandidates env post) := by
  refine ⟨?_, ?_, ?_⟩
  · intro primary m env
    unfold analyze_competitors
    cases h : competitorTryBody primary m env with
    | error e => rfl
    | ok r => exact competitorTryBody_primary primary m env r h
  · intro primary m env e h
    unfold analyze_competitors
    rw [h]
  · intro env pre post url e h
    simp [analyzeCandidates, List.filterMap_append, h]

/-- Witness for C10: the environment whose capability call raises yields
the failure-shaped analysis, and a concrete failing candidate in the middle
of a batch is skipped. -/
theorem analyze_competitors_total_and_skips_witness :
    (analyze_competitors primaryX 3 envLLMFails =
      { primary_brand := primaryX, competitors := [],
        analysis_summary := some ("Competitor analysis failed: " ++ "api down") })
    ∧ (analyzeCandidates envOneBadCandidate
          (["https://ok.example"] ++ "https://bad.example" :: ["https://ok2.example"]) =
        analyzeCandidates envOneBadCandidate ["https://ok.example"] ++
          analyzeCandidates envOneBadCandidate ["https://ok2.example"]) :=
  ⟨analyze_competitors_total_and_skips.2.1 primaryX 3 envLLMFails "api down" rfl,
   analyze_competitors_total_and_skips.2.2 envOneBadCandidate
     ["https://ok.example"] ["https://ok2.example"] "https://bad.example" "timeout" rfl⟩

end ShopifyInsights
